import Mathlib

/-
Verification of the camtrapdp_convert pipeline scripts.

Shallow embedding of the record-linkage and reconciliation logic of
scripts/link_media_by_serial.py, scripts/build_deployments.py,
scripts/merge_labels.py and scripts/build_observations.py.

Modelling conventions:
- Python strings are Lean Strings; the Python string methods strip/upper/
  lower/startswith are modelled over the underlying character list (ASCII
  semantics, which is what the data uses).
- Timestamps parsed by the external dateutil parser are modelled as an
  abstract totally ordered time (Int): the linker only ever compares them.
- CSV dict rows are structures of String fields; absent columns behave as
  the empty string (Python code reads them with row.get(k) or "").
- Python dicts used as lookup indices are association lists.
-/

namespace CamtrapDP

/-! ## Python string primitives -/

/-- Whitespace characters stripped by Python str.strip(). -/
def pyWSChar (c : Char) : Bool :=
  c == ' ' || c == '\t' || c == '\n' || c == '\r' || c == '\x0b' || c == '\x0c'

def pyStripList (l : List Char) : List Char :=
  ((l.dropWhile pyWSChar).reverse.dropWhile pyWSChar).reverse

/-- Python str.strip(). -/
def pyStrip (s : String) : String := ⟨pyStripList s.data⟩

def upChar (c : Char) : Char :=
  if 'a' ≤ c ∧ c ≤ 'z' then Char.ofNat (c.toNat - 32) else c

def downChar (c : Char) : Char :=
  if 'A' ≤ c ∧ c ≤ 'Z' then Char.ofNat (c.toNat + 32) else c

/-- Python str.upper() (ASCII). -/
def pyUpper (s : String) : String := ⟨s.data.map upChar⟩

/-- Python str.lower() (ASCII). -/
def pyLower (s : String) : String := ⟨s.data.map downChar⟩

/-- Does the second list begin with the first? -/
def strBegins : List Char → List Char → Bool
  | [], _ => true
  | _ :: _, [] => false
  | p :: ps, s :: ss => p == s && strBegins ps ss

/-- Python s.startswith(p). -/
def pyStartsWith (s p : String) : Bool := strBegins p.data s.data

/-- Substring membership, Python `sub in s`. -/
def listHas (sub : List Char) : List Char → Bool
  | [] => strBegins sub []
  | c :: rest => strBegins sub (c :: rest) || listHas sub rest

def pyContains (s sub : String) : Bool := listHas sub.data s.data

/-- Python `a or b` for an optional string a: a if it is present and
non-empty, else b. -/
def pyOrStr (a : Option String) (b : String) : String :=
  match a with
  | some s => if s = "" then b else s
  | none => b

/-- Association-list lookup, modelling Python dict lookup. -/
def alookup {α : Type} (k : String) : List (String × α) → Option α
  | [] => none
  | (k2, v) :: rest => if k = k2 then some v else alookup k rest

deriving instance DecidableEq for Except

def digitVal (c : Char) : Nat := c.toNat - '0'.toNat

/-! ## scripts/link_media_by_serial.py -/

/-- One candidate deployment for a serial, as built by
load_deployments_by_serial: deploymentID plus the parsed (optional)
start/end instants. -/
structure Cand where
  deploymentID : String
  start : Option Int
  stop : Option Int
deriving DecidableEq, Repr

/-- The interval-containment test of choose_deployment:
(s is None or when >= s) and (e is None or when <= e). -/
def inWindow (dep : Cand) (t : Int) : Bool :=
  (match dep.start with | none => true | some s => decide (s ≤ t)) &&
  (match dep.stop with | none => true | some e => decide (t ≤ e))

/-- choose_deployment: one candidate is chosen unconditionally; with
several, the loop returns the first whose window contains the timestamp;
None timestamp or no containing window yields None. -/
def choose_deployment (cands : List Cand) (t : Option Int) : Option String :=
  match cands, t with
  | [], _ => none
  | [c], _ => some c.deploymentID
  | _ :: _ :: _, none => none
  | c1 :: c2 :: rest, some ts =>
    ((c1 :: c2 :: rest).find? (fun dep => inWindow dep ts)).map (fun dep => dep.deploymentID)

/-- A row of media.csv after field parsing. timestamp is the result of
parse_ts (none when the timestamp cell is blank); exifData is the decoded
EXIF key-value map; rest carries the remaining CSV columns untouched. -/
structure MediaRow where
  mediaID : String
  deploymentID : String
  timestamp : Option Int
  filePath : String
  exifData : List (String × String)
  rest : List (String × String)
deriving DecidableEq, Repr

/-- get_serial_from_media_row: SerialNumber, else BodySerialNumber,
else empty; stripped. -/
def get_serial_from_media_row (md : List (String × String)) : String :=
  pyStrip (pyOrStr (alookup "SerialNumber" md) (pyOrStr (alookup "BodySerialNumber" md) ""))

/-- Per-row increments of the linker counters (linked, missing_serial,
ambiguous). -/
structure LinkDelta where
  linked : Nat
  missing_serial : Nat
  ambiguous : Nat
deriving DecidableEq, Repr

/-- The warning branch of main's row loop: missing serial, else ambiguous
when more than one candidate exists. -/
def linkWarn (serial : String) (cands : List Cand) : LinkDelta :=
  if serial = "" then ⟨0, 1, 0⟩
  else if 1 < cands.length then ⟨0, 0, 1⟩
  else ⟨0, 0, 0⟩

/-- One iteration of main's row loop over media.csv (lines 102-120):
re-resolve deploymentID only when it is blank or starts (case-folded)
with the placeholder "DEPLOY"; a truthy pick is written back, otherwise
the row is left as-is and a warning counter is bumped. -/
def linkRow (by_serial : List (String × List Cand)) (row : MediaRow) : MediaRow × LinkDelta :=
  let serial := get_serial_from_media_row row.exifData
  let chosen := pyStrip row.deploymentID
  if chosen = "" ∨ pyStartsWith (pyUpper chosen) "DEPLOY" = true then
    let cands := (alookup serial by_serial).getD []
    match choose_deployment cands row.timestamp with
    | some p => if p = "" then (row, linkWarn serial cands) else ({ row with deploymentID := p }, ⟨1, 0, 0⟩)
    | none => (row, linkWarn serial cands)
  else (row, ⟨0, 0, 0⟩)

/-- main of link_media_by_serial.py, reduced to its exit status and row
transform: a missing media.csv prints an error and returns from main, so
the interpreter exits with status 0; otherwise every row goes through
linkRow and the process also ends with status 0 (first component is the
process exit status). -/
def link_media_run (by_serial : List (String × List Cand)) (media : Option (List MediaRow)) :
    Nat × List MediaRow :=
  match media with
  | none => (0, [])
  | some rows => (0, rows.map (fun r => (linkRow by_serial r).1))

/-! ## scripts/build_deployments.py -/

def TZ_ABBR_TO_OFFSET : List (String × String) :=
  [("UTC", "Z"), ("Z", "Z"),
   ("EST", "-05:00"), ("EDT", "-04:00"),
   ("CST", "-06:00"), ("CDT", "-05:00"),
   ("MST", "-07:00"), ("MDT", "-06:00"),
   ("PST", "-08:00"), ("PDT", "-07:00")]

/-- The six-character ±HH:MM literal test of normalize_offset:
len(v)==6, v[0] in "+-", v[1:3].isdigit(), v[3]==":", v[4:6].isdigit(). -/
def offsetLit (v : List Char) : Bool :=
  match v with
  | [c0, c1, c2, c3, c4, c5] =>
    (c0 == '+' || c0 == '-') && c1.isDigit && c2.isDigit && c3 == ':' && c4.isDigit && c5.isDigit
  | _ => false

/-- Python truthiness of an optional string. -/
def pyTruthy (o : Option String) : Bool :=
  match o with
  | none => false
  | some s => decide (s ≠ "")

/-- normalize_offset: a truthy explicit value is stripped and uppercased,
then matched against Z, the ±HH:MM literal form and the abbreviation
table, and otherwise returned as-is (stripped+uppercased); with no usable
explicit value the header hint, the default hint, and finally "Z" apply. -/
def normalize_offset (val : Option String) (header_hint : Option String) (default_hint : String) : String :=
  if pyTruthy val = true ∧ pyStrip (val.getD "") ≠ "" then
    let v := pyUpper (pyStrip (val.getD ""))
    if v = "Z" then "Z"
    else if offsetLit v.data = true then v
    else match alookup v TZ_ABBR_TO_OFFSET with
      | some o => o
      | none => v
  else
    let hdr :=
      match header_hint with
      | some hh => if hh ≠ "" then alookup (pyUpper (pyStrip hh)) TZ_ABBR_TO_OFFSET else none
      | none => none
    match hdr with
    | some o => o
    | none => (alookup (pyUpper (pyStrip default_hint)) TZ_ABBR_TO_OFFSET).getD "Z"

/-- A naive datetime value (what datetime.strptime builds here). -/
structure DT where
  year : Nat
  month : Nat
  day : Nat
  hour : Nat
  minute : Nat
  second : Nat
deriving DecidableEq, Repr

def isLeap (y : Nat) : Bool := (y % 4 == 0 && y % 100 != 0) || y % 400 == 0

def daysInMonth (y m : Nat) : Nat :=
  if m = 2 then (if isLeap y then 29 else 28)
  else if m = 4 ∨ m = 6 ∨ m = 9 ∨ m = 11 then 30
  else 31

/-- Take one or two leading digits, greedily, as strptime's 1-2 digit
numeric fields do (the following delimiter is never a digit, so the
greedy take agrees with the regex backtracking of _strptime). -/
def take2Digits : List Char → Option (Nat × List Char)
  | c1 :: c2 :: rest =>
    if c1.isDigit then
      (if c2.isDigit then some (digitVal c1 * 10 + digitVal c2, rest)
       else some (digitVal c1, c2 :: rest))
    else none
  | [c1] => if c1.isDigit then some (digitVal c1, []) else none
  | [] => none

/-- Exactly four digits (strptime %Y). -/
def take4Digits : List Char → Option (Nat × List Char)
  | c1 :: c2 :: c3 :: c4 :: rest =>
    if c1.isDigit && c2.isDigit && c3.isDigit && c4.isDigit then
      some (((digitVal c1 * 10 + digitVal c2) * 10 + digitVal c3) * 10 + digitVal c4, rest)
    else none
  | _ => none

/-- Exactly two digits (strptime %y). -/
def takeTwoExact : List Char → Option (Nat × List Char)
  | c1 :: c2 :: rest =>
    if c1.isDigit && c2.isDigit then some (digitVal c1 * 10 + digitVal c2, rest) else none
  | _ => none

/-- strptime("%m/%d/%Y") followed by the datetime construction: month
1-12, day valid for the month, year ≥ 1, whole string consumed. -/
def matchMDY (l : List Char) : Option (Nat × Nat × Nat) := do
  let (m, r1) ← take2Digits l
  if 1 ≤ m ∧ m ≤ 12 then
    match r1 with
    | '/' :: r2 => do
      let (d, r3) ← take2Digits r2
      match r3 with
      | '/' :: r4 => do
        let (y, r5) ← take4Digits r4
        if r5 = [] ∧ 1 ≤ y ∧ 1 ≤ d ∧ d ≤ daysInMonth y m then some (y, m, d) else none
      | _ => none
    | _ => none
  else none

/-- Two-digit year pivot used by strptime's %y. -/
def y2ToYear (y2 : Nat) : Nat := if y2 ≤ 68 then 2000 + y2 else 1900 + y2

/-- strptime("%m/%d/%y") plus datetime construction. -/
def matchMDy2 (l : List Char) : Option (Nat × Nat × Nat) := do
  let (m, r1) ← take2Digits l
  if 1 ≤ m ∧ m ≤ 12 then
    match r1 with
    | '/' :: r2 => do
      let (d, r3) ← take2Digits r2
      match r3 with
      | '/' :: r4 => do
        let (y2, r5) ← takeTwoExact r4
        let y := y2ToYear y2
        if r5 = [] ∧ 1 ≤ d ∧ d ≤ daysInMonth y m then some (y, m, d) else none
      | _ => none
    | _ => none
  else none

/-- strptime("%Y-%m-%d") plus datetime construction. -/
def matchYMD (l : List Char) : Option (Nat × Nat × Nat) := do
  let (y, r1) ← take4Digits l
  match r1 with
  | '-' :: r2 => do
    let (m, r3) ← take2Digits r2
    if 1 ≤ m ∧ m ≤ 12 then
      match r3 with
      | '-' :: r4 => do
        let (d, r5) ← take2Digits r4
        if r5 = [] ∧ 1 ≤ y ∧ 1 ≤ d ∧ d ≤ daysInMonth y m then some (y, m, d) else none
      | _ => none
    else none
  | _ => none

/-- parse_date: blank input is None; the three formats are tried in
order; a non-blank input matching none raises ValueError. -/
def parse_date (s : String) : Except String (Option DT) :=
  if pyStrip s = "" then .ok none
  else
    let t := (pyStrip s).data
    match matchMDY t with
    | some (y, m, d) => .ok (some ⟨y, m, d, 0, 0, 0⟩)
    | none =>
      match matchMDy2 t with
      | some (y, m, d) => .ok (some ⟨y, m, d, 0, 0, 0⟩)
      | none =>
        match matchYMD t with
        | some (y, m, d) => .ok (some ⟨y, m, d, 0, 0, 0⟩)
        | none => .error ("Unrecognized date format: " ++ pyStrip s)

/-- strptime %I field: hour 1-12. -/
def matchHour12 (l : List Char) : Option (Nat × List Char) := do
  let (h, r) ← take2Digits l
  if 1 ≤ h ∧ h ≤ 12 then some (h, r) else none

/-- strptime %H field: hour 0-23. -/
def matchHour24 (l : List Char) : Option (Nat × List Char) := do
  let (h, r) ← take2Digits l
  if h ≤ 23 then some (h, r) else none

/-- strptime %M / %S fields combined with the datetime range check. -/
def matchMin (l : List Char) : Option (Nat × List Char) := do
  let (m, r) ← take2Digits l
  if m ≤ 59 then some (m, r) else none

/-- strptime %p after the format's whitespace: one or more whitespace
characters, then AM or PM case-insensitively, returning true for PM. -/
def matchAmPm (l : List Char) : Option (Bool × List Char) :=
  match l.dropWhile pyWSChar with
  | a :: p :: rest =>
    if l.dropWhile pyWSChar ≠ l then
      if (upChar a == 'A' || upChar a == 'P') && upChar p == 'M' then
        some (upChar a == 'P', rest)
      else none
    else none
  | _ => none

def hour12To24 (h : Nat) (pm : Bool) : Nat := h % 12 + (if pm then 12 else 0)

/-- "%I:%M:%S %p" -/
def fmtIMSp (l : List Char) : Option (Nat × Nat × Nat) := do
  let (h, r1) ← matchHour12 l
  match r1 with
  | ':' :: r2 => do
    let (mi, r3) ← matchMin r2
    match r3 with
    | ':' :: r4 => do
      let (s, r5) ← matchMin r4
      let (pm, r6) ← matchAmPm r5
      if r6 = [] then some (hour12To24 h pm, mi, s) else none
    | _ => none
  | _ => none

/-- "%I:%M %p" -/
def fmtIMp (l : List Char) : Option (Nat × Nat × Nat) := do
  let (h, r1) ← matchHour12 l
  match r1 with
  | ':' :: r2 => do
    let (mi, r3) ← matchMin r2
    let (pm, r4) ← matchAmPm r3
    if r4 = [] then some (hour12To24 h pm, mi, 0) else none
  | _ => none

/-- "%H:%M:%S" -/
def fmtHMS (l : List Char) : Option (Nat × Nat × Nat) := do
  let (h, r1) ← matchHour24 l
  match r1 with
  | ':' :: r2 => do
    let (mi, r3) ← matchMin r2
    match r3 with
    | ':' :: r4 => do
      let (s, r5) ← matchMin r4
      if r5 = [] then some (h, mi, s) else none
    | _ => none
  | _ => none

/-- "%H:%M" -/
def fmtHM (l : List Char) : Option (Nat × Nat × Nat) := do
  let (h, r1) ← matchHour24 l
  match r1 with
  | ':' :: r2 => do
    let (mi, r3) ← matchMin r2
    if r3 = [] then some (h, mi, 0) else none
  | _ => none

/-- parse_time: blank is None; the four formats are tried in order; a
non-blank input matching none raises ValueError. -/
def parse_time (s : String) : Except String (Option (Nat × Nat × Nat)) :=
  if pyStrip s = "" then .ok none
  else
    let t := (pyStrip s).data
    match fmtIMSp t with
    | some v => .ok (some v)
    | none =>
      match fmtIMp t with
      | some v => .ok (some v)
      | none =>
        match fmtHMS t with
        | some v => .ok (some v)
        | none =>
          match fmtHM t with
          | some v => .ok (some v)
          | none => .error ("Unrecognized time format: " ++ pyStrip s)

/-- combine_dt: no date means no value; a time replaces the midnight
default, and a missing time on an end-type field becomes 23:59:59. -/
def combine_dt (d : Option DT) (hms : Option (Nat × Nat × Nat)) (end_of_day_if_none : Bool) :
    Option DT :=
  match d with
  | none => none
  | some dv =>
    match hms with
    | some (h, m, s) => some { dv with hour := h, minute := m, second := s }
    | none =>
      if end_of_day_if_none then some { dv with hour := 23, minute := 59, second := 59 }
      else some dv

def pad2 (n : Nat) : String := if n < 10 then "0" ++ toString n else toString n

def pad4 (n : Nat) : String :=
  if n < 10 then "000" ++ toString n
  else if n < 100 then "00" ++ toString n
  else if n < 1000 then "0" ++ toString n
  else toString n

/-- iso_with_offset: strftime("%Y-%m-%dT%H:%M:%S") plus the offset
suffix. -/
def iso_with_offset (dt : Option DT) (offset : String) : String :=
  match dt with
  | none => ""
  | some d =>
    pad4 d.year ++ "-" ++ pad2 d.month ++ "-" ++ pad2 d.day ++ "T" ++
      pad2 d.hour ++ ":" ++ pad2 d.minute ++ ":" ++ pad2 d.second ++
      (if offset = "Z" then "Z" else offset)

/-- normalize_bool. -/
def normalize_bool (val : String) : String :=
  let v := pyLower (pyStrip val)
  if v = "true" ∨ v = "t" ∨ v = "yes" ∨ v = "y" ∨ v = "1" then "true"
  else if v = "false" ∨ v = "f" ∨ v = "no" ∨ v = "n" ∨ v = "0" then "false"
  else ""

/-- normalize_camera_model. -/
def normalize_camera_model (m : String) : String :=
  if m = "" then ""
  else
    let ms := pyStrip m
    if pyContains (pyUpper ms) "HF2" ∨ pyContains (pyUpper ms) "HYPERFIRE" then "Reconyx-" ++ ms
    else ms

/-- safe_num. -/
def safe_num (s : String) : String := if pyStrip s = "" then "" else pyStrip s

/-- Python str.strip("_"): every leading and trailing underscore
removed. -/
def pyStripUnd (s : String) : String :=
  ⟨((s.data.dropWhile (· == '_')).reverse.dropWhile (· == '_')).reverse⟩

/-- One row of raw_deployment.csv; absent columns are the empty string.
startTime is the "StartTime" column and endTime the value of the
detected "EndTime ..." column (empty when that column is absent, which
is also how main leaves end_t None in that case). -/
structure RawRow where
  siteID : String
  cameraSerial : String
  cameraModel : String
  latitude : String
  longitude : String
  startLocal : String
  endLocal : String
  startTime : String
  endTime : String
  offset : String
  locationID : String
  locationName : String
  setUp : String
  coordinateUncertainty : String
  cameraDelay : String
  cameraHeight : String
  cameraDepth : String
  cameraTilt : String
  cameraHeading : String
  detectionDistance : String
  timestampIssues : String
  baitUse : String
  featureType : String
  habitat : String
  deploymentGroups : String
  deploymentTags : String
  comments : String
deriving DecidableEq, Repr

/-- One output row of deployments.csv. -/
structure DepRow where
  deploymentID : String
  locationID : String
  locationName : String
  latitude : String
  longitude : String
  coordinateUncertainty : String
  deploymentStart : String
  deploymentEnd : String
  setupBy : String
  cameraID : String
  cameraModel : String
  cameraDelay : String
  cameraHeight : String
  cameraDepth : String
  cameraTilt : String
  cameraHeading : String
  detectionDistance : String
  timestampIssues : String
  baitUse : String
  featureType : String
  habitat : String
  deploymentGroups : String
  deploymentTags : String
  deploymentComments : String
deriving DecidableEq, Repr

/-- The blank-line skip of main's loop: no cell has non-whitespace
content. -/
def rawRowBlank (r : RawRow) : Bool :=
  pyStrip r.siteID = "" ∧ pyStrip r.cameraSerial = "" ∧ pyStrip r.cameraModel = "" ∧
  pyStrip r.latitude = "" ∧ pyStrip r.longitude = "" ∧ pyStrip r.startLocal = "" ∧
  pyStrip r.endLocal = "" ∧ pyStrip r.startTime = "" ∧ pyStrip r.endTime = "" ∧
  pyStrip r.offset = "" ∧ pyStrip r.locationID = "" ∧ pyStrip r.locationName = "" ∧
  pyStrip r.setUp = "" ∧ pyStrip r.coordinateUncertainty = "" ∧ pyStrip r.cameraDelay = "" ∧
  pyStrip r.cameraHeight = "" ∧ pyStrip r.cameraDepth = "" ∧ pyStrip r.cameraTilt = "" ∧
  pyStrip r.cameraHeading = "" ∧ pyStrip r.detectionDistance = "" ∧
  pyStrip r.timestampIssues = "" ∧ pyStrip r.baitUse = "" ∧ pyStrip r.featureType = "" ∧
  pyStrip r.habitat = "" ∧ pyStrip r.deploymentGroups = "" ∧ pyStrip r.deploymentTags = "" ∧
  pyStrip r.comments = ""

/-- The body of main's row loop of build_deployments.py (lines 134-203):
field normalization, date/time parsing (whose ValueError propagates),
and assembly of the output row. -/
def build_row (tz_hint_from_header : Option String) (row : RawRow) : Except String DepRow :=
  match parse_date row.startLocal with
  | .error e => .error e
  | .ok start_d =>
  match parse_date row.endLocal with
  | .error e => .error e
  | .ok end_d =>
  match parse_time row.startTime with
  | .error e => .error e
  | .ok start_t =>
  match parse_time row.endTime with
  | .error e => .error e
  | .ok end_t =>
  let siteID := pyStrip row.siteID
  let serial := pyStrip row.cameraSerial
  let model := normalize_camera_model row.cameraModel
  let lat := pyStrip row.latitude
  let lon := pyStrip row.longitude
  let offset := normalize_offset (some row.offset) tz_hint_from_header "EST"
  let start_dt := combine_dt start_d start_t false
  let end_dt := combine_dt end_d end_t true
  .ok {
    deploymentID := pyStripUnd (siteID ++ "_" ++ serial)
    locationID := pyStrip (if row.locationID = "" then siteID else row.locationID)
    locationName := pyStrip row.locationName
    latitude := lat
    longitude := lon
    coordinateUncertainty := safe_num row.coordinateUncertainty
    deploymentStart := iso_with_offset start_dt offset
    deploymentEnd := iso_with_offset end_dt offset
    setupBy := pyStrip row.setUp
    cameraID := serial
    cameraModel := model
    cameraDelay := safe_num row.cameraDelay
    cameraHeight := safe_num row.cameraHeight
    cameraDepth := safe_num row.cameraDepth
    cameraTilt := safe_num row.cameraTilt
    cameraHeading := safe_num row.cameraHeading
    detectionDistance := safe_num row.detectionDistance
    timestampIssues := normalize_bool row.timestampIssues
    baitUse := normalize_bool row.baitUse
    featureType := pyStrip row.featureType
    habitat := pyStrip row.habitat
    deploymentGroups := pyStrip row.deploymentGroups
    deploymentTags := pyStrip row.deploymentTags
    deploymentComments := pyStrip row.comments
  }

/-- The row loop of build_deployments.py: blank rows are skipped, good
rows are written as they come, and an uncaught ValueError stops the loop
at once (the rows already written stay written, nothing after the bad
row is processed). Returns the written rows and the pending error. -/
def build_rows (hint : Option String) : List RawRow → List DepRow × Option String
  | [] => ([], none)
  | r :: rs =>
    if rawRowBlank r then build_rows hint rs
    else
      match build_row hint r with
      | .error e => ([], some e)
      | .ok d =>
        let (ds, err) := build_rows hint rs
        (d :: ds, err)

/-- main of build_deployments.py reduced to its exit status and output:
a missing raw_deployment.csv prints an error and returns from main
(process exit status 0); an uncaught ValueError from a row terminates
the interpreter with a traceback (exit status 1). -/
def build_deployments_run (hint : Option String) (raw : Option (List RawRow)) :
    Nat × List DepRow :=
  match raw with
  | none => (0, [])
  | some rows =>
    match build_rows hint rows with
    | (out, some _) => (1, out)
    | (out, none) => (0, out)

/-! ## scripts/merge_labels.py -/

def OBSERVATION_TYPE_ENUM : List String :=
  ["animal", "human", "vehicle", "blank", "unknown", "unclassified"]

def LIFESTAGE_ENUM : List String := ["adult", "subadult", "juvenile"]

def SEX_ENUM : List String := ["female", "male"]

def AI_METHOD : String := "machine learning"

def AI_CLASSIFIED_BY : String := "BioCLIP-2 zero-shot (multi-prompt)"

/-- Digits possibly separated by single underscores, continuing an
already-started integer literal (Python int() grammar, sign and first
digit handled by the caller; surrounding whitespace is stripped before
the call sites reach this). -/
def pyDigitsU : Nat → List Char → Option Nat
  | acc, [] => some acc
  | acc, '_' :: rest =>
    match rest with
    | c :: rest2 => if c.isDigit then pyDigitsU (acc * 10 + digitVal c) rest2 else none
    | [] => none
  | acc, c :: rest => if c.isDigit then pyDigitsU (acc * 10 + digitVal c) rest else none

/-- Python int(s) on an already-stripped string: optional sign, then
digits (single underscores allowed between digits); None models the
ValueError. -/
def pyInt (s : String) : Option Int :=
  match s.data with
  | '+' :: c :: r2 => if c.isDigit then (pyDigitsU (digitVal c) r2).map Int.ofNat else none
  | '-' :: c :: r2 => if c.isDigit then (pyDigitsU (digitVal c) r2).map (fun n => -(Int.ofNat n)) else none
  | '+' :: [] => none
  | '-' :: [] => none
  | c :: rest => if c.isDigit then (pyDigitsU (digitVal c) rest).map Int.ofNat else none
  | [] => none

/-- Greedy digit run: value, number of digits, remainder. -/
def takeDigs : Nat → Nat → List Char → Nat × Nat × List Char
  | acc, k, c :: rest =>
    if c.isDigit then takeDigs (acc * 10 + digitVal c) (k + 1) rest else (acc, k, c :: rest)
  | acc, k, [] => (acc, k, [])

/-- Python float(s) restricted to plain decimal literals (optional sign,
digits, optional fractional part); the exotic float() inputs (exponents,
inf, nan, underscores) do not occur in this data and are modelled as
failures. Floats are idealized as exact rationals. -/
def pyFloatQ (s : String) : Option ℚ :=
  let (neg, l) :=
    match s.data with
    | '+' :: r => (false, r)
    | '-' :: r => (true, r)
    | r => (false, r)
  let (ip, ki, r1) := takeDigs 0 0 l
  match r1 with
  | [] => if ki = 0 then none else some (Rat.divInt (if neg then -(ip : Int) else (ip : Int)) 1)
  | '.' :: r2 =>
    let (fp, kf, r3) := takeDigs 0 0 r2
    if r3 = [] ∧ 0 < ki + kf then
      let num : Int := ((ip * 10 ^ kf + fp : Nat) : Int)
      some (Rat.divInt (if neg then -num else num) ((10 ^ kf : Nat) : Int))
    else none
  | _ => none

/-- One observations.csv row; the columns neither pass ever touches
(eventID, bbox, individual fields, tags, ...) ride along in rest. -/
structure Obs where
  observationID : String
  deploymentID : String
  mediaID : String
  eventStart : String
  eventEnd : String
  observationLevel : String
  observationType : String
  scientificName : String
  count : String
  lifeStage : String
  sex : String
  behavior : String
  classificationMethod : String
  classifiedBy : String
  classificationTimestamp : String
  classificationProbability : String
  observationComments : String
  rest : List (String × String)
deriving DecidableEq, Repr

/-- One human label row (observations_to_label.csv), carrying exactly the
EDITABLE columns the template emits. -/
structure LabRow where
  observationID : String
  observationType : String
  scientificName : String
  count : String
  lifeStage : String
  sex : String
  behavior : String
  observationComments : String
deriving DecidableEq, Repr

/-- The changed dict staged for one label row. -/
structure Staged where
  observationType : Option String
  scientificName : Option String
  count : Option String
  lifeStage : Option String
  sex : Option String
  behavior : Option String
  observationComments : Option String
deriving DecidableEq, Repr

/-- Staging of one ordinary editable field: empty label values are
ignored, as are values equal to the current one. -/
def stageField (v cur : String) : Option String :=
  let vs := pyStrip v
  if vs = "" then none
  else
    let cs := pyStrip cur
    if vs = cs then none else some vs

/-- Staging of observationType: lowercase comparison, and the template
default "unclassified" is ignored unless it would change a value that is
neither empty nor "unclassified". -/
def stageObsType (v cur : String) : Option String :=
  let vs := pyStrip v
  if vs = "" then none
  else
    let cs := pyStrip cur
    let vn := pyLower vs
    let cn := pyLower cs
    if vn = "unclassified" ∧ (cn = "" ∨ cn = "unclassified") then none
    else if vn = cn then none
    else some vs

/-- The changed dict built by the human-merge loop for one label row. -/
def stage_changes (obs : Obs) (lab : LabRow) : Staged :=
  { observationType := stageObsType lab.observationType obs.observationType
    scientificName := stageField lab.scientificName obs.scientificName
    count := stageField lab.count obs.count
    lifeStage := stageField lab.lifeStage obs.lifeStage
    sex := stageField lab.sex obs.sex
    behavior := stageField lab.behavior obs.behavior
    observationComments := stageField lab.observationComments obs.observationComments }

def stagedEmpty (ch : Staged) : Bool :=
  ch.observationType.isNone && ch.scientificName.isNone && ch.count.isNone &&
  ch.lifeStage.isNone && ch.sex.isNone && ch.behavior.isNone && ch.observationComments.isNone

/-- validate_row: enum checks for observationType / lifeStage / sex and
the integer ≥ 1 check for count; the first failure raises (the inner
"count must be >= 1" ValueError is re-raised as the generic count
message by the surrounding except clause, as in the source). -/
def validate_row (edits : Staged) : Except String Unit :=
  let ot := pyStrip (edits.observationType.getD "")
  if ot ≠ "" ∧ ot ∉ OBSERVATION_TYPE_ENUM then .error ("Invalid observationType: " ++ ot)
  else
    let ls := pyStrip (edits.lifeStage.getD "")
    if ls ≠ "" ∧ ls ∉ LIFESTAGE_ENUM then .error ("Invalid lifeStage: " ++ ls)
    else
      let sx := pyStrip (edits.sex.getD "")
      if sx ≠ "" ∧ sx ∉ SEX_ENUM then .error ("Invalid sex: " ++ sx)
      else
        let cnt := pyStrip (edits.count.getD "")
        if cnt = "" then .ok ()
        else
          match pyInt cnt with
          | none => .error ("Invalid count (not integer): " ++ cnt)
          | some c => if c < 1 then .error ("Invalid count (not integer): " ++ cnt) else .ok ()

/-- The validation conditions as one decidable predicate: each staged
field either stages nothing or stages a legal value. -/
def stagedValidB (ch : Staged) : Bool :=
  (let ot := pyStrip (ch.observationType.getD "")
   decide (ot = "") || decide (ot ∈ OBSERVATION_TYPE_ENUM)) &&
  (let ls := pyStrip (ch.lifeStage.getD "")
   decide (ls = "") || decide (ls ∈ LIFESTAGE_ENUM)) &&
  (let sx := pyStrip (ch.sex.getD "")
   decide (sx = "") || decide (sx ∈ SEX_ENUM)) &&
  (let cnt := pyStrip (ch.count.getD "")
   decide (cnt = "") || (match pyInt cnt with | some c => decide (1 ≤ c) | none => false))

/-- Application of a validated changed dict. -/
def applyStaged (obs : Obs) (ch : Staged) : Obs :=
  { obs with
    observationType := ch.observationType.getD obs.observationType
    scientificName := ch.scientificName.getD obs.scientificName
    count := ch.count.getD obs.count
    lifeStage := ch.lifeStage.getD obs.lifeStage
    sex := ch.sex.getD obs.sex
    behavior := ch.behavior.getD obs.behavior
    observationComments := ch.observationComments.getD obs.observationComments }

/-- One iteration of the human-merge loop (lines 110-158) for a label row
already matched to its observation: stage, validate, apply, and stamp
human provenance when the row was previously unset or machine-labelled.
The Bool reports whether updated_human was incremented. -/
def human_merge_row (now : String) (obs : Obs) (lab : LabRow) : Obs × Bool :=
  let changed := stage_changes obs lab
  if stagedEmpty changed then (obs, false)
  else
    match validate_row changed with
    | .error _ => (obs, false)
    | .ok _ =>
      let obs1 := applyStaged obs changed
      let cm := pyLower (pyStrip obs1.classificationMethod)
      if cm = "" ∨ cm = "machine learning" then
        ({ obs1 with
            classificationMethod := "human"
            classifiedBy := if obs1.classifiedBy = "" then "human" else obs1.classifiedBy
            classificationTimestamp := now }, true)
      else (obs1, true)

/-- One AI detection row of detections_bioclip.csv. -/
structure AIRow where
  mediaID : String
  observationType : String
  scientificName : String
  classifiedBy : String
  classificationProbability : String
deriving DecidableEq, Repr

/-- The probability the AI pass reads from a detection row: missing or
empty becomes "0", an unparsable value becomes 0.0. -/
def aiProbOf (ai : AIRow) : ℚ :=
  let s := pyStrip (if ai.classificationProbability = "" then "0" else ai.classificationProbability)
  (pyFloatQ s).getD 0

/-- Per-observation increments of the AI-pass counters. -/
structure AIDelta where
  updated_ai : Nat
  skipped_lowconf : Nat
  skipped_human_override : Nat
  missing_ai : Nat
deriving DecidableEq, Repr

def zeroAID : AIDelta := ⟨0, 0, 0, 0⟩

/-- should_fill: an empty current value is always fillable; a non-empty
one only when the observation is in the machine-learning state (the
source also tests that the field is one of the six AI content fields,
which is identically true at each of its call sites). -/
def should_fill (cm : String) (current : String) : Bool :=
  if pyStrip current = "" then true else decide (cm = AI_METHOD)

/-- The classifiedBy value the AI pass writes:
(ai.get("classifiedBy") or AI_CLASSIFIED_BY).strip() or AI_CLASSIFIED_BY. -/
def aiClassifiedByVal (ai : AIRow) : String :=
  let a := if ai.classifiedBy = "" then AI_CLASSIFIED_BY else ai.classifiedBy
  let b := pyStrip a
  if b = "" then AI_CLASSIFIED_BY else b

/-- The observationType value the AI pass writes: stripped, and
normalized to "unknown" when empty or outside the enum. -/
def aiObsTypeVal (ai : AIRow) : String :=
  let val := pyStrip ai.observationType
  if val = "" ∨ val ∉ OBSERVATION_TYPE_ENUM then "unknown" else val

/-- The observationType if-block of the AI merge (also reports whether
it applied, which is what feeds updated_ai). -/
def fillObsType (cm : String) (ai : AIRow) (obs : Obs) : Obs × Bool :=
  if should_fill cm obs.observationType then ({ obs with observationType := aiObsTypeVal ai }, true)
  else (obs, false)

/-- The scientificName if-block of the AI merge. -/
def fillSciName (cm : String) (ai : AIRow) (obs : Obs) : Obs :=
  if should_fill cm obs.scientificName then { obs with scientificName := pyStrip ai.scientificName }
  else obs

/-- The classificationMethod if-block of the AI merge. -/
def fillMethod (cm : String) (obs : Obs) : Obs :=
  if should_fill cm obs.classificationMethod then { obs with classificationMethod := AI_METHOD }
  else obs

/-- The classifiedBy if-block of the AI merge. -/
def fillBy (cm : String) (ai : AIRow) (obs : Obs) : Obs :=
  if should_fill cm obs.classifiedBy then { obs with classifiedBy := aiClassifiedByVal ai }
  else obs

/-- The classificationTimestamp if-block of the AI merge. -/
def fillStamp (cm : String) (now : String) (obs : Obs) : Obs :=
  if should_fill cm obs.classificationTimestamp then { obs with classificationTimestamp := now }
  else obs

/-- The classificationProbability if-block of the AI merge. -/
def fillProb (cm : String) (ai : AIRow) (obs : Obs) : Obs :=
  if should_fill cm obs.classificationProbability then
    { obs with classificationProbability := pyStrip ai.classificationProbability }
  else obs

/-- The fill section of the AI merge (lines 222-248): the six AI content
fields in source order, each filled when should_fill allows it against
the observation as updated so far; updated_ai counts only rows where the
observationType block applied. -/
def ai_fill (cm : String) (ai : AIRow) (now : String) (obs : Obs) : Obs × AIDelta :=
  let (obs1, applied) := fillObsType cm ai obs
  let obs6 := fillProb cm ai (fillStamp cm now (fillBy cm ai (fillMethod cm (fillSciName cm ai obs1))))
  (obs6, { zeroAID with updated_ai := if applied then 1 else 0 })

/-- One iteration of the AI-merge loop (lines 185-248) for one
observation, against the mediaID → best-detection index: skip on missing
mediaID, no detection, low confidence, or non-ML non-empty
classificationMethod; otherwise run the fill section. -/
def ai_merge_obs (ai_by_media : List (String × AIRow)) (thr : ℚ) (now : String) (obs : Obs) :
    Obs × AIDelta :=
  let mid := pyStrip obs.mediaID
  if mid = "" then (obs, zeroAID)
  else
    match alookup mid ai_by_media with
    | none => (obs, { zeroAID with missing_ai := 1 })
    | some ai =>
      let ai_prob := aiProbOf ai
      if ai_prob < thr then (obs, { zeroAID with skipped_lowconf := 1 })
      else
        let cm := pyLower (pyStrip obs.classificationMethod)
        if cm ≠ "" ∧ cm ≠ AI_METHOD then (obs, { zeroAID with skipped_human_override := 1 })
        else ai_fill cm ai now obs

/-- A fresh observation row as build_observations.py emits it (lines
97-128): everything empty except the identifying fields, the timestamps,
level "media" and the template observationType "unclassified". -/
def templateObs (obs_id dep_id media_id ts : String) : Obs :=
  { observationID := obs_id
    deploymentID := dep_id
    mediaID := media_id
    eventStart := ts
    eventEnd := ts
    observationLevel := "media"
    observationType := "unclassified"
    scientificName := ""
    count := ""
    lifeStage := ""
    sex := ""
    behavior := ""
    classificationMethod := ""
    classifiedBy := ""
    classificationTimestamp := ""
    classificationProbability := ""
    observationComments := ""
    rest := [] }

/-! ## Concrete fixtures -/

/-- A raw deployment row with every cell empty. -/
def emptyRawRow : RawRow :=
  ⟨"", "", "", "", "", "", "", "", "", "", "", "", "", "", "", "", "", "", "", "", "", "", "",
   "", "", "", ""⟩

/-- A row whose start date matches none of the three accepted formats. -/
def rowBadDate : RawRow := { emptyRawRow with siteID := "A", startLocal := "2025.01.02" }

/-- A well-formed row (empty dates parse to None). -/
def rowGoodDep : RawRow := { emptyRawRow with siteID := "B", cameraSerial := "C1" }

/-- A row with an empty siteID and a serial carrying its own trailing
underscore. -/
def rowSerialUnd : RawRow := { emptyRawRow with cameraSerial := "CAM7_" }

/-- The deployment row build_row produces for rowGoodDep. -/
def dGoodDep : DepRow :=
  match build_row none rowGoodDep with
  | .ok d => d
  | .error _ => ⟨"", "", "", "", "", "", "", "", "", "", "", "", "", "", "", "", "", "", "", "",
                 "", "", "", ""⟩

/-! ## Helper lemmas -/

theorem find_first_of_unique {α : Type} (p : α → Bool) (l : List α) (c : α)
    (hc : c ∈ l) (hpc : p c = true) (huniq : ∀ x ∈ l, p x = true → x = c) :
    l.find? p = some c := by
  induction l with
  | nil => cases hc
  | cons a t ih =>
    by_cases ha : p a = true
    · have hac : a = c := huniq a (List.mem_cons_self a t) ha
      subst hac
      simp [List.find?_cons, ha]
    · have hane : p a = false := by
        cases h : p a
        · rfl
        · exact absurd h ha
      rcases List.mem_cons.mp hc with h | h
      · subst h; exact absurd hpc ha
      · have hrec := ih h (fun x hx hpx => huniq x (List.mem_cons_of_mem _ hx) hpx)
        simp [List.find?_cons, hane, hrec]

theorem find_first_match {α : Type} (p : α → Bool) (l1 l2 : List α) (c : α)
    (h1 : ∀ x ∈ l1, p x = false) (hc : p c = true) :
    (l1 ++ c :: l2).find? p = some c := by
  induction l1 with
  | nil => simp [List.find?_cons, hc]
  | cons a t ih =>
    have ha : p a = false := h1 a (List.mem_cons_self a t)
    have hrec := ih (fun x hx => h1 x (List.mem_cons_of_mem _ hx))
    simp [List.find?_cons, ha, hrec]

/-! ## Claims about the Serial-to-Deployment Linker -/

/-- C7: a media record whose camera serial has exactly one candidate
deployment is assigned that deployment unconditionally — for any
timestamp, including one outside the deployment window, and also when
the timestamp is absent (row.timestamp is universally quantified and
never inspected). -/
theorem c7_single_candidate_assigned (by_serial : List (String × List Cand)) (row : MediaRow)
    (c : Cand)
    (hres : pyStrip row.deploymentID = "" ∨
      pyStartsWith (pyUpper (pyStrip row.deploymentID)) "DEPLOY" = true)
    (hlook : alookup (get_serial_from_media_row row.exifData) by_serial = some [c])
    (hid : c.deploymentID ≠ "") :
    linkRow by_serial row = ({ row with deploymentID := c.deploymentID }, ⟨1, 0, 0⟩) := by
  have hone : choose_deployment [c] row.timestamp = some c.deploymentID := by
    cases row.timestamp <;> rfl
  simp only [linkRow, hlook, Option.getD_some]
  rw [if_pos hres, hone]
  simp [hid]

/-- C7 witness: a single-candidate serial is linked even though the
timestamp 99 lies outside the candidate window [0, 10]. -/
theorem c7_witness :
    linkRow [("S1", [⟨"D1", some 0, some 10⟩])]
        ⟨"m", "", some 99, "f", [("SerialNumber", "S1")], []⟩ =
      (⟨"m", "D1", some 99, "f", [("SerialNumber", "S1")], []⟩, ⟨1, 0, 0⟩) :=
  c7_single_candidate_assigned _ _ ⟨"D1", some 0, some 10⟩ (Or.inl (by decide)) (by decide)
    (by decide)

/-- C8: a media record whose current deploymentID is non-empty after
stripping and does not start (case-folded) with the placeholder "DEPLOY"
is written out completely unchanged, with no counter incremented. -/
theorem c8_assigned_record_untouched (by_serial : List (String × List Cand)) (row : MediaRow)
    (h1 : pyStrip row.deploymentID ≠ "")
    (h2 : pyStartsWith (pyUpper (pyStrip row.deploymentID)) "DEPLOY" = false) :
    linkRow by_serial row = (row, ⟨0, 0, 0⟩) := by
  simp only [linkRow]
  rw [if_neg]
  intro h
  rcases h with h | h
  · exact h1 h
  · rw [h2] at h; cases h

/-- C8 witness: a manually assigned deploymentID survives linking. -/
theorem c8_witness :
    linkRow [("S1", [⟨"D1", some 0, some 10⟩]), ("S2", [⟨"D2", none, none⟩])]
        ⟨"m", "MANUAL1", some 5, "f", [("SerialNumber", "S1")], [("favorite", "x")]⟩ =
      (⟨"m", "MANUAL1", some 5, "f", [("SerialNumber", "S1")], [("favorite", "x")]⟩, ⟨0, 0, 0⟩) :=
  c8_assigned_record_untouched _ _ (by decide) (by decide)

/-- C1 counterexample: two candidates whose windows BOTH contain the
timestamp 5; the claim says the record must then stay unresolved with
the ambiguous counter incremented, but choose_deployment returns the
first match and the row is linked (linked counter, not ambiguous). -/
theorem c1_counterexample :
    inWindow ⟨"D1", some 0, some 10⟩ 5 = true ∧
    inWindow ⟨"D2", some 0, some 10⟩ 5 = true ∧
    choose_deployment [⟨"D1", some 0, some 10⟩, ⟨"D2", some 0, some 10⟩] (some 5) = some "D1" ∧
    linkRow [("S1", [⟨"D1", some 0, some 10⟩, ⟨"D2", some 0, some 10⟩])]
        ⟨"m", "", some 5, "f", [("SerialNumber", "S1")], []⟩ =
      (⟨"m", "D1", some 5, "f", [("SerialNumber", "S1")], []⟩, ⟨1, 0, 0⟩) := by
  decide

/-- C1 (amended): with two or more candidate deployments for the serial,
the Linker assigns the first candidate (in table order) whose window
contains the timestamp — stated for every decomposition of the candidate
list into a containing candidate preceded only by non-containing ones,
so it covers the case of several containing windows — and in particular
the unique containing candidate when exactly one contains it; when no
window contains the timestamp, or the timestamp is absent, the record is
left unchanged and the ambiguous counter is incremented. -/
theorem c1_multi_candidate_resolution (by_serial : List (String × List Cand)) (row : MediaRow)
    (cands : List Cand)
    (hres : pyStrip row.deploymentID = "" ∨
      pyStartsWith (pyUpper (pyStrip row.deploymentID)) "DEPLOY" = true)
    (hser : get_serial_from_media_row row.exifData ≠ "")
    (hlook : alookup (get_serial_from_media_row row.exifData) by_serial = some cands)
    (hlen : 2 ≤ cands.length) :
    (row.timestamp = none → linkRow by_serial row = (row, ⟨0, 0, 1⟩)) ∧
    (∀ t, row.timestamp = some t → (∀ c ∈ cands, inWindow c t = false) →
      linkRow by_serial row = (row, ⟨0, 0, 1⟩)) ∧
    (∀ t c l1 l2, row.timestamp = some t → cands = l1 ++ c :: l2 →
      (∀ x ∈ l1, inWindow x t = false) → inWindow c t = true → c.deploymentID ≠ "" →
      linkRow by_serial row = ({ row with deploymentID := c.deploymentID }, ⟨1, 0, 0⟩)) ∧
    (∀ t c, row.timestamp = some t → c ∈ cands → inWindow c t = true →
      (∀ c2 ∈ cands, inWindow c2 t = true → c2 = c) → c.deploymentID ≠ "" →
      linkRow by_serial row = ({ row with deploymentID := c.deploymentID }, ⟨1, 0, 0⟩)) := by
  obtain ⟨c1, c2, tl, rfl⟩ : ∃ c1 c2 tl, cands = c1 :: c2 :: tl := by
    match cands, hlen with
    | c1 :: c2 :: tl, _ => exact ⟨c1, c2, tl, rfl⟩
  have hwarn : linkWarn (get_serial_from_media_row row.exifData) (c1 :: c2 :: tl) = ⟨0, 0, 1⟩ := by
    unfold linkWarn
    rw [if_neg hser, if_pos]
    simp only [List.length_cons]
    omega
  refine ⟨?_, ?_, ?_, ?_⟩
  · intro ht
    have hcd : choose_deployment (c1 :: c2 :: tl) none = none := rfl
    simp only [linkRow, hlook, Option.getD_some, ht, hcd]
    rw [if_pos hres]
    simpa using hwarn
  · intro t ht hnone
    have hfind : (c1 :: c2 :: tl).find? (fun dep => inWindow dep t) = none := by
      rw [List.find?_eq_none]
      intro x hx
      simp [hnone x hx]
    simp only [linkRow, hlook, Option.getD_some, ht, choose_deployment, hfind, Option.map_none']
    rw [if_pos hres]
    simpa using hwarn
  · intro t c l1 l2 ht heq hbefore hin hid
    have hfind : (c1 :: c2 :: tl).find? (fun dep => inWindow dep t) = some c := by
      rw [heq]
      exact find_first_match _ l1 l2 c hbefore hin
    simp only [linkRow, hlook, Option.getD_some, ht, choose_deployment, hfind, Option.map_some']
    rw [if_pos hres]
    simp [hid]
  · intro t c ht hc hin huniq hid
    have hfind : (c1 :: c2 :: tl).find? (fun dep => inWindow dep t) = some c :=
      find_first_of_unique _ _ c hc hin huniq
    simp only [linkRow, hlook, Option.getD_some, ht, choose_deployment, hfind, Option.map_some']
    rw [if_pos hres]
    simp [hid]

/-- C1 witness: timestamp 25 lies outside the first window [0,10] and
inside BOTH of the later windows [20,30] and [18,40]; the record is
linked to "D2", the first containing candidate in table order. -/
theorem c1_witness :
    linkRow [("S1", [⟨"D1", some 0, some 10⟩, ⟨"D2", some 20, some 30⟩,
        ⟨"D3", some 18, some 40⟩])]
        ⟨"m", "", some 25, "f", [("SerialNumber", "S1")], []⟩ =
      (⟨"m", "D2", some 25, "f", [("SerialNumber", "S1")], []⟩, ⟨1, 0, 0⟩) := by
  have h := c1_multi_candidate_resolution
    [("S1", [⟨"D1", some 0, some 10⟩, ⟨"D2", some 20, some 30⟩, ⟨"D3", some 18, some 40⟩])]
    ⟨"m", "", some 25, "f", [("SerialNumber", "S1")], []⟩
    [⟨"D1", some 0, some 10⟩, ⟨"D2", some 20, some 30⟩, ⟨"D3", some 18, some 40⟩]
    (Or.inl (by decide)) (by decide) (by decide) (by decide)
  exact h.2.2.1 25 ⟨"D2", some 20, some 30⟩ [⟨"D1", some 0, some 10⟩]
    [⟨"D3", some 18, some 40⟩] rfl (by decide) (by decide) (by decide) (by decide)

/-! ## Claims about the Observation Reconciler -/

/-- C2: an observation whose classificationMethod is "human" is returned
unchanged by the AI-merge pass, for any detection index, any threshold
and any timestamp — the HUMAN state is terminal for AI merges. -/
theorem c2_human_is_terminal (ai_by_media : List (String × AIRow)) (thr : ℚ) (now : String)
    (obs : Obs) (h : obs.classificationMethod = "human") :
    (ai_merge_obs ai_by_media thr now obs).1 = obs := by
  have hcm : pyLower (pyStrip obs.classificationMethod) = "human" := by rw [h]; rfl
  simp only [ai_merge_obs, hcm]
  split
  · rfl
  · split
    · rfl
    · split
      · rfl
      · rw [if_pos (by decide : ("human" : String) ≠ "" ∧ ("human" : String) ≠ AI_METHOD)]

/-- Projections of the observationType fill block: the applied flag
equals the should_fill test, observationType is conditionally replaced,
every other field is untouched. -/
theorem fillObsType_proj (cm : String) (ai : AIRow) (obs : Obs) :
    (fillObsType cm ai obs).2 = should_fill cm obs.observationType ∧
    (fillObsType cm ai obs).1.observationType =
      (if should_fill cm obs.observationType then aiObsTypeVal ai else obs.observationType) ∧
    (fillObsType cm ai obs).1.scientificName = obs.scientificName ∧
    (fillObsType cm ai obs).1.classificationMethod = obs.classificationMethod ∧
    (fillObsType cm ai obs).1.classifiedBy = obs.classifiedBy ∧
    (fillObsType cm ai obs).1.classificationTimestamp = obs.classificationTimestamp ∧
    (fillObsType cm ai obs).1.classificationProbability = obs.classificationProbability := by
  by_cases h : should_fill cm obs.observationType = true
  · simp [fillObsType, h]
  · simp [fillObsType, h]

/-- Projections of the scientificName fill block. -/
theorem fillSciName_proj (cm : String) (ai : AIRow) (obs : Obs) :
    (fillSciName cm ai obs).scientificName =
      (if should_fill cm obs.scientificName then pyStrip ai.scientificName
       else obs.scientificName) ∧
    (fillSciName cm ai obs).observationType = obs.observationType ∧
    (fillSciName cm ai obs).classificationMethod = obs.classificationMethod ∧
    (fillSciName cm ai obs).classifiedBy = obs.classifiedBy ∧
    (fillSciName cm ai obs).classificationTimestamp = obs.classificationTimestamp ∧
    (fillSciName cm ai obs).classificationProbability = obs.classificationProbability := by
  by_cases h : should_fill cm obs.scientificName = true
  · simp [fillSciName, h]
  · simp [fillSciName, h]

/-- Projections of the classificationMethod fill block. -/
theorem fillMethod_proj (cm : String) (obs : Obs) :
    (fillMethod cm obs).classificationMethod =
      (if should_fill cm obs.classificationMethod then AI_METHOD
       else obs.classificationMethod) ∧
    (fillMethod cm obs).observationType = obs.observationType ∧
    (fillMethod cm obs).scientificName = obs.scientificName ∧
    (fillMethod cm obs).classifiedBy = obs.classifiedBy ∧
    (fillMethod cm obs).classificationTimestamp = obs.classificationTimestamp ∧
    (fillMethod cm obs).classificationProbability = obs.classificationProbability := by
  by_cases h : should_fill cm obs.classificationMethod = true
  · simp [fillMethod, h]
  · simp [fillMethod, h]

/-- Projections of the classifiedBy fill block. -/
theorem fillBy_proj (cm : String) (ai : AIRow) (obs : Obs) :
    (fillBy cm ai obs).classifiedBy =
      (if should_fill cm obs.classifiedBy then aiClassifiedByVal ai else obs.classifiedBy) ∧
    (fillBy cm ai obs).observationType = obs.observationType ∧
    (fillBy cm ai obs).scientificName = obs.scientificName ∧
    (fillBy cm ai obs).classificationMethod = obs.classificationMethod ∧
    (fillBy cm ai obs).classificationTimestamp = obs.classificationTimestamp ∧
    (fillBy cm ai obs).classificationProbability = obs.classificationProbability := by
  by_cases h : should_fill cm obs.classifiedBy = true
  · simp [fillBy, h]
  · simp [fillBy, h]

/-- Projections of the classificationTimestamp fill block. -/
theorem fillStamp_proj (cm now : String) (obs : Obs) :
    (fillStamp cm now obs).classificationTimestamp =
      (if should_fill cm obs.classificationTimestamp then now
       else obs.classificationTimestamp) ∧
    (fillStamp cm now obs).observationType = obs.observationType ∧
    (fillStamp cm now obs).scientificName = obs.scientificName ∧
    (fillStamp cm now obs).classificationMethod = obs.classificationMethod ∧
    (fillStamp cm now obs).classifiedBy = obs.classifiedBy ∧
    (fillStamp cm now obs).classificationProbability = obs.classificationProbability := by
  by_cases h : should_fill cm obs.classificationTimestamp = true
  · simp [fillStamp, h]
  · simp [fillStamp, h]

/-- Projections of the classificationProbability fill block. -/
theorem fillProb_proj (cm : String) (ai : AIRow) (obs : Obs) :
    (fillProb cm ai obs).classificationProbability =
      (if should_fill cm obs.classificationProbability then
        pyStrip ai.classificationProbability
       else obs.classificationProbability) ∧
    (fillProb cm ai obs).observationType = obs.observationType ∧
    (fillProb cm ai obs).scientificName = obs.scientificName ∧
    (fillProb cm ai obs).classificationMethod = obs.classificationMethod ∧
    (fillProb cm ai obs).classifiedBy = obs.classifiedBy ∧
    (fillProb cm ai obs).classificationTimestamp = obs.classificationTimestamp := by
  by_cases h : should_fill cm obs.classificationProbability = true
  · simp [fillProb, h]
  · simp [fillProb, h]

/-- C2 witness: a human-labelled observation survives an AI pass with a
matching high-confidence detection. -/
theorem c2_witness :
    (ai_merge_obs [("m1", ⟨"m1", "animal", "Felis catus", "bc", "0.99"⟩)] 0 "NOW"
        { templateObs "o1" "d1" "m1" "t1" with
            observationType := "animal", count := "2", classificationMethod := "human" }).1 =
      { templateObs "o1" "d1" "m1" "t1" with
          observationType := "animal", count := "2", classificationMethod := "human" } :=
  c2_human_is_terminal _ 0 "NOW" _ rfl

/-- C9: a template observation (classificationMethod empty,
observationType holding the non-empty template value "unclassified",
provenance fields empty) merged against a detection at or above the
threshold gets scientificName, classificationMethod, classifiedBy,
classificationTimestamp and classificationProbability filled, but
observationType stays "unclassified" (should_fill sees it non-empty and
the row is not in the ML state) and the AI-filled counter is NOT
incremented for that observation. -/
theorem c9_template_unclassified_partial_fill (ai_by_media : List (String × AIRow)) (thr : ℚ)
    (now oid dep mid ts : String) (ai : AIRow)
    (hmid : pyStrip mid ≠ "")
    (hlook : alookup (pyStrip mid) ai_by_media = some ai)
    (hprob : ¬ aiProbOf ai < thr) :
    (ai_merge_obs ai_by_media thr now (templateObs oid dep mid ts)).1.observationType =
        "unclassified" ∧
    (ai_merge_obs ai_by_media thr now (templateObs oid dep mid ts)).1.scientificName =
        pyStrip ai.scientificName ∧
    (ai_merge_obs ai_by_media thr now (templateObs oid dep mid ts)).1.classificationMethod =
        AI_METHOD ∧
    (ai_merge_obs ai_by_media thr now (templateObs oid dep mid ts)).1.classifiedBy =
        aiClassifiedByVal ai ∧
    (ai_merge_obs ai_by_media thr now (templateObs oid dep mid ts)).1.classificationTimestamp =
        now ∧
    (ai_merge_obs ai_by_media thr now
        (templateObs oid dep mid ts)).1.classificationProbability =
      pyStrip ai.classificationProbability ∧
    (ai_merge_obs ai_by_media thr now (templateObs oid dep mid ts)).2.updated_ai = 0 := by
  have hmid2 : pyStrip (templateObs oid dep mid ts).mediaID = pyStrip mid := rfl
  have hcm : pyLower (pyStrip (templateObs oid dep mid ts).classificationMethod) = "" := rfl
  have hbranch : ai_merge_obs ai_by_media thr now (templateObs oid dep mid ts) =
      ai_fill "" ai now (templateObs oid dep mid ts) := by
    simp only [ai_merge_obs, hmid2, hlook, hcm]
    rw [if_neg hmid, if_neg hprob,
      if_neg (by simp : ¬ (("" : String) ≠ "" ∧ ("" : String) ≠ AI_METHOD))]
  have hsplit : ai_fill "" ai now (templateObs oid dep mid ts) =
      (fillProb "" ai (fillStamp "" now (fillBy "" ai (fillMethod ""
          (fillSciName "" ai (fillObsType "" ai (templateObs oid dep mid ts)).1)))),
        { zeroAID with
            updated_ai :=
              if (fillObsType "" ai (templateObs oid dep mid ts)).2 then 1 else 0 }) := rfl
  set T := templateObs oid dep mid ts with hT
  obtain ⟨a2, a1, aS, aM, aB, aTm, aP⟩ := fillObsType_proj "" ai T
  have hsf0 : should_fill "" T.observationType = false := rfl
  set O1 := (fillObsType "" ai T).1 with hO1
  have hsfS : should_fill "" O1.scientificName = true := by
    rw [aS]; exact rfl
  obtain ⟨bS, bT, bM, bB, bTm, bP⟩ := fillSciName_proj "" ai O1
  set O2 := fillSciName "" ai O1 with hO2
  have hsfM : should_fill "" O2.classificationMethod = true := by
    rw [bM, aM]; exact rfl
  obtain ⟨cM, cT, cS, cB, cTm, cP⟩ := fillMethod_proj "" O2
  set O3 := fillMethod "" O2 with hO3
  have hsfB : should_fill "" O3.classifiedBy = true := by
    rw [cB, bB, aB]; exact rfl
  obtain ⟨dB, dT, dS, dM, dTm, dP⟩ := fillBy_proj "" ai O3
  set O4 := fillBy "" ai O3 with hO4
  have hsfTm : should_fill "" O4.classificationTimestamp = true := by
    rw [dTm, cTm, bTm, aTm]; exact rfl
  obtain ⟨eTm, eT, eS, eM, eB, eP⟩ := fillStamp_proj "" now O4
  set O5 := fillStamp "" now O4 with hO5
  have hsfP : should_fill "" O5.classificationProbability = true := by
    rw [eP, dP, cP, bP, aP]; exact rfl
  obtain ⟨fP, fT, fS, fM, fB, fTm⟩ := fillProb_proj "" ai O5
  refine ⟨?_, ?_, ?_, ?_, ?_, ?_, ?_⟩
  · rw [hbranch, hsplit]
    show (fillProb "" ai O5).observationType = "unclassified"
    rw [fT, eT, dT, cT, bT, a1, hsf0]
    exact rfl
  · rw [hbranch, hsplit]
    show (fillProb "" ai O5).scientificName = pyStrip ai.scientificName
    rw [fS, eS, dS, cS, bS, hsfS]
    simp
  · rw [hbranch, hsplit]
    show (fillProb "" ai O5).classificationMethod = AI_METHOD
    rw [fM, eM, dM, cM, hsfM]
    simp
  · rw [hbranch, hsplit]
    show (fillProb "" ai O5).classifiedBy = aiClassifiedByVal ai
    rw [fB, eB, dB, hsfB]
    simp
  · rw [hbranch, hsplit]
    show (fillProb "" ai O5).classificationTimestamp = now
    rw [fTm, eTm, hsfTm]
    simp
  · rw [hbranch, hsplit]
    show (fillProb "" ai O5).classificationProbability = pyStrip ai.classificationProbability
    rw [fP, hsfP]
    simp
  · rw [hbranch, hsplit]
    show (if (fillObsType "" ai T).2 then 1 else 0) = 0
    rw [a2, hsf0]
    simp

/-- C9 witness: a 0.9-probability detection against threshold 1/2 fills
provenance and scientificName of a fresh template row, leaves
observationType "unclassified", and does not bump updated_ai. -/
theorem c9_witness :
    (ai_merge_obs [("m1", ⟨"m1", "animal", "Felis catus", "", "0.9"⟩)] (Rat.divInt 1 2) "NOW"
        (templateObs "o1" "d1" "m1" "t1")).1.observationType = "unclassified" ∧
    (ai_merge_obs [("m1", ⟨"m1", "animal", "Felis catus", "", "0.9"⟩)] (Rat.divInt 1 2) "NOW"
        (templateObs "o1" "d1" "m1" "t1")).1.classificationMethod = AI_METHOD ∧
    (ai_merge_obs [("m1", ⟨"m1", "animal", "Felis catus", "", "0.9"⟩)] (Rat.divInt 1 2) "NOW"
        (templateObs "o1" "d1" "m1" "t1")).2.updated_ai = 0 := by
  have h := c9_template_unclassified_partial_fill
    [("m1", ⟨"m1", "animal", "Felis catus", "", "0.9"⟩)] (Rat.divInt 1 2) "NOW" "o1" "d1" "m1" "t1"
    ⟨"m1", "animal", "Felis catus", "", "0.9"⟩ (by decide) (by decide) (by decide)
  exact ⟨h.1, h.2.2.1, h.2.2.2.2.2.2⟩

/-- The imperative validator succeeds exactly when every staged field is
legal (enums for observationType / lifeStage / sex, integer ≥ 1 for
count). -/
theorem validate_row_ok_iff (ch : Staged) :
    validate_row ch = .ok () ↔ stagedValidB ch = true := by
  unfold validate_row stagedValidB
  by_cases h1 : pyStrip (ch.observationType.getD "") ≠ "" ∧
      pyStrip (ch.observationType.getD "") ∉ OBSERVATION_TYPE_ENUM
  · rw [if_pos h1]
    simp only [reduceCtorEq, false_iff]
    simp [h1.1, h1.2]
  · rw [if_neg h1]
    have e1 : (decide (pyStrip (ch.observationType.getD "") = "") ||
        decide (pyStrip (ch.observationType.getD "") ∈ OBSERVATION_TYPE_ENUM)) = true := by
      rcases not_and_or.mp h1 with h | h
      · simp [Decidable.not_not.mp h]
      · simp [Decidable.not_not.mp h]
    rw [e1, Bool.true_and]
    by_cases h2 : pyStrip (ch.lifeStage.getD "") ≠ "" ∧
        pyStrip (ch.lifeStage.getD "") ∉ LIFESTAGE_ENUM
    · rw [if_pos h2]
      simp only [reduceCtorEq, false_iff]
      simp [h2.1, h2.2]
    · rw [if_neg h2]
      have e2 : (decide (pyStrip (ch.lifeStage.getD "") = "") ||
          decide (pyStrip (ch.lifeStage.getD "") ∈ LIFESTAGE_ENUM)) = true := by
        rcases not_and_or.mp h2 with h | h
        · simp [Decidable.not_not.mp h]
        · simp [Decidable.not_not.mp h]
      rw [e2, Bool.true_and]
      by_cases h3 : pyStrip (ch.sex.getD "") ≠ "" ∧ pyStrip (ch.sex.getD "") ∉ SEX_ENUM
      · rw [if_pos h3]
        simp only [reduceCtorEq, false_iff]
        simp [h3.1, h3.2]
      · rw [if_neg h3]
        have e3 : (decide (pyStrip (ch.sex.getD "") = "") ||
            decide (pyStrip (ch.sex.getD "") ∈ SEX_ENUM)) = true := by
          rcases not_and_or.mp h3 with h | h
          · simp [Decidable.not_not.mp h]
          · simp [Decidable.not_not.mp h]
        rw [e3, Bool.true_and]
        by_cases h4 : pyStrip (ch.count.getD "") = ""
        · rw [if_pos h4]
          simp [h4]
        · rw [if_neg h4]
          cases hpi : pyInt (pyStrip (ch.count.getD "")) with
          | none => simp [h4, hpi]
          | some c =>
            by_cases h5 : c < 1
            · simp only [hpi, h4]
              rw [if_pos h5]
              simp [h4, hpi]
              omega
            · simp only [hpi, h4]
              rw [if_neg h5]
              simp [h4, hpi]
              omega

/-- C6: when any staged field of a human label row fails validation, the
whole row is rejected: the observation is returned exactly as it was and
updated_human is not incremented — no partial application. -/
theorem c6_invalid_row_is_atomic (now : String) (obs : Obs) (lab : LabRow)
    (h : stagedValidB (stage_changes obs lab) = false) :
    human_merge_row now obs lab = (obs, false) := by
  simp only [human_merge_row]
  split
  · rfl
  · cases hv : validate_row (stage_changes obs lab) with
    | error e => rfl
    | ok u =>
      cases u
      rw [(validate_row_ok_iff (stage_changes obs lab)).mp hv] at h
      cases h

/-- C6 witness: a label row staging the invalid count "0" (and a valid
species edit) leaves the observation untouched and uncounted. -/
theorem c6_witness :
    human_merge_row "NOW" (templateObs "o1" "d1" "m1" "t1")
        ⟨"o1", "animal", "Felis catus", "0", "", "", "", ""⟩ =
      (templateObs "o1" "d1" "m1" "t1", false) :=
  c6_invalid_row_is_atomic "NOW" (templateObs "o1" "d1" "m1" "t1")
    ⟨"o1", "animal", "Felis catus", "0", "", "", "", ""⟩ (by decide)

/-! ## Claims about the Time Normalizer -/

/-- C3 counterexample: the explicit offset value "xyz" matches none of
the recognized forms (not Z, not a ±HH:MM literal, not a known
abbreviation), yet normalize_offset returns "XYZ", not the value "xyz"
unmodified: the passthrough uppercases (and strips) the value. -/
theorem c3_counterexample :
    pyStrip "xyz" ≠ "" ∧
    pyUpper (pyStrip "xyz") ≠ "Z" ∧
    offsetLit (pyUpper (pyStrip "xyz")).data = false ∧
    alookup (pyUpper (pyStrip "xyz")) TZ_ABBR_TO_OFFSET = none ∧
    normalize_offset (some "xyz") none "EST" = "XYZ" ∧
    "XYZ" ≠ "xyz" := by
  decide

/-- C3 (amended): a per-row explicit offset value that is non-blank but
whose stripped uppercased form matches none of the recognized forms (not
"Z", not a ±HH:MM literal, not a known abbreviation) is passed through
as that stripped uppercased form rather than rejected — the row does not
fail. -/
theorem c3_unrecognized_offset_passthrough (val : String) (hh : Option String) (dh : String)
    (hne : pyStrip val ≠ "")
    (hz : pyUpper (pyStrip val) ≠ "Z")
    (hlit : offsetLit (pyUpper (pyStrip val)).data = false)
    (habbr : alookup (pyUpper (pyStrip val)) TZ_ABBR_TO_OFFSET = none) :
    normalize_offset (some val) hh dh = pyUpper (pyStrip val) := by
  have hv : val ≠ "" := by
    intro h
    rw [h] at hne
    exact hne rfl
  have htru : pyTruthy (some val) = true := by
    simp [pyTruthy, hv]
  unfold normalize_offset
  rw [if_pos ⟨htru, by simpa using hne⟩]
  simp only [Option.getD_some]
  rw [if_neg hz, if_neg (by simp [hlit]), habbr]

/-- C3 witness: the exotic offset value " lmt " survives (stripped and
uppercased) instead of failing the row. -/
theorem c3_witness :
    normalize_offset (some " lmt ") none "UTC" = pyUpper (pyStrip " lmt ") :=
  c3_unrecognized_offset_passthrough " lmt " none "UTC" (by decide) (by decide) (by decide)
    (by decide)

/-! ## Claims about the Deployment Table Builder -/

/-- C4 counterexample: a non-empty date matching none of the three
formats raises, and the raised error propagates out of the row loop —
the following well-formed row, which alone would produce one output row,
is never processed, contradicting per-row containment. -/
theorem c4_counterexample :
    parse_date "2025.01.02" = .error "Unrecognized date format: 2025.01.02" ∧
    (build_rows none [rowGoodDep]).1.length = 1 ∧
    build_rows none [rowBadDate, rowGoodDep] =
      ([], some "Unrecognized date format: 2025.01.02") := by
  decide

/-- C4 (amended): a non-empty date string matching none of the three
accepted formats raises a ValueError that is not caught at the row
boundary: it aborts the entire stage, and no remaining row of the input
is processed. -/
theorem c4_bad_date_aborts_stage (hint : Option String) (row : RawRow) (rows : List RawRow)
    (e : String)
    (hnb : rawRowBlank row = false)
    (herr : parse_date row.startLocal = .error e) :
    build_rows hint (row :: rows) = ([], some e) := by
  have hb : build_row hint row = .error e := by
    unfold build_row
    rw [herr]
  simp only [build_rows, hnb, Bool.false_eq_true, if_false, hb]

/-- C4 witness: the bad-date row aborts the stage with the good row
still pending. -/
theorem c4_witness :
    build_rows none (rowBadDate :: [rowGoodDep]) =
      ([], some "Unrecognized date format: 2025.01.02") :=
  c4_bad_date_aborts_stage none rowBadDate [rowGoodDep] "Unrecognized date format: 2025.01.02"
    (by decide) (by decide)

/-- C5: contrary to the claim, a missing required input file does NOT
produce a non-zero exit status — both cited stages print an error and
return from main, exiting 0 — while a per-record failure (a bad date in
one row) DOES terminate build_deployments with a non-zero status. -/
theorem c5_exit_status_behavior (hint : Option String) (by_serial : List (String × List Cand)) :
    (build_deployments_run hint none).1 = 0 ∧
    (link_media_run by_serial none).1 = 0 ∧
    (build_deployments_run none (some [rowBadDate])).1 = 1 := by
  refine ⟨rfl, rfl, ?_⟩
  decide

/-- C10 counterexample: with an empty siteID and cameraSerial "CAM7_",
the emitted deploymentID is "CAM7", not the serial alone — the strip of
underscores also eats underscores that belong to the serial itself. -/
theorem c10_counterexample :
    pyStrip (rowSerialUnd.siteID) = "" ∧
    (build_row none rowSerialUnd).toOption.map DepRow.deploymentID = some "CAM7" ∧
    "CAM7" ≠ pyStrip rowSerialUnd.cameraSerial := by
  decide

/-- Dropping every leading underscore of an underscore-preceded list is
the same as dropping them from the list itself. -/
theorem dropUnd_cons (l : List Char) :
    ('_' :: l).dropWhile (· == '_') = l.dropWhile (· == '_') := by
  rw [List.dropWhile_cons]
  simp

/-- C10 (amended): the emitted deploymentID is siteID ++ "_" ++ serial
with all leading and trailing underscores stripped; when siteID is empty
this equals the serial with ITS leading and trailing underscores
stripped (not necessarily the serial alone), and when both are empty it
is the empty string. -/
theorem c10_deploymentID_shape (hint : Option String) (row : RawRow) (d : DepRow)
    (h : build_row hint row = .ok d) :
    d.deploymentID = pyStripUnd (pyStrip row.siteID ++ "_" ++ pyStrip row.cameraSerial) ∧
    (pyStrip row.siteID = "" →
      d.deploymentID = pyStripUnd ("_" ++ pyStrip row.cameraSerial)) ∧
    (pyStrip row.siteID = "" →
      d.deploymentID = pyStripUnd (pyStrip row.cameraSerial)) ∧
    (pyStrip row.siteID = "" → pyStrip row.cameraSerial = "" → d.deploymentID = "") := by
  have main : d.deploymentID =
      pyStripUnd (pyStrip row.siteID ++ "_" ++ pyStrip row.cameraSerial) := by
    unfold build_row at h
    split at h
    · exact absurd h (by simp)
    · split at h
      · exact absurd h (by simp)
      · split at h
        · exact absurd h (by simp)
        · split at h
          · exact absurd h (by simp)
          · injection h with h
            rw [← h]
  refine ⟨main, ?_, ?_, ?_⟩
  · intro hs
    rw [main, hs]
    rfl
  · intro hs
    rw [main, hs]
    show pyStripUnd ((("" : String) ++ "_") ++ pyStrip row.cameraSerial) =
      pyStripUnd (pyStrip row.cameraSerial)
    unfold pyStripUnd
    rw [show ((("" : String) ++ "_") ++ pyStrip row.cameraSerial).data =
      '_' :: (pyStrip row.cameraSerial).data from by simp]
    rw [dropUnd_cons]
  · intro hs hc
    rw [main, hs, hc]
    rfl

/-- C10 witness: for siteID "B" and serial "C1" the emitted
deploymentID follows the stripped-concatenation shape ("B_C1"). -/
theorem c10_witness :
    dGoodDep.deploymentID =
      pyStripUnd (pyStrip rowGoodDep.siteID ++ "_" ++ pyStrip rowGoodDep.cameraSerial) :=
  (c10_deploymentID_shape none rowGoodDep dGoodDep (by decide)).1

end CamtrapDP
